import Mathlib

/-!
Verification of the inventory data model in src/inventory/models.py.

The file defines Django models (Supplier, Part, Vehicle, VehiclePart,
PurchaseRequest, Inventory, Delivery, Maintenance) together with four signal
receivers that implement the inventory-adjustment rules:

  - update_inventory_on_delivery (post_save on Delivery),
  - update_inventory_on_maintenance (post_save on Maintenance),
  - validate_purchase_request (pre_save on PurchaseRequest),
  - handle_purchase_request_approval (post_save on PurchaseRequest).

We give a shallow embedding of those rules as pure functions over an explicit
database state: tables are association lists keyed by surrogate primary keys
(Nat), dates are abstracted to Nat ordinals, and the quantity column of
Inventory is carried as Int so that non-negativity is a provable invariant
rather than a typing artifact.  Operations that can surface a database or
validation error to the caller of save() return Except.
-/

namespace Mdrrmo

/-- Errors surfaced to the caller of a Django save(): database integrity
errors (NOT NULL / FOREIGN KEY constraint violations) and validation errors
raised by signal receivers. -/
inductive DBError where
  | integrityError (msg : String) : DBError
  | validationError (msg : String) : DBError
deriving DecidableEq

/-- Row of the PurchaseRequest model.  The quantity attribute is the raw
Python integer carried by the instance: an unsaved instance may hold any
integer, and the pre_save receiver rejects non-positive values before the
row is written.  Foreign keys are primary keys of the referenced tables;
the vehicle reference is nullable in the source. -/
structure PurchaseRequest where
  part : Nat
  vehicle : Option Nat
  quantity : Int
  request_date : Nat
  approved : Bool
  delivered : Bool
  delivery_date : Option Nat
  notes : Option String
deriving DecidableEq

/-- Row of the Vehicle model (fields as declared in the source; dates are
Nat ordinals). -/
structure Vehicle where
  vin : String
  make : String
  model : String
  year : Int
  license_plate : String
  last_maintenance_date : Option Nat
deriving DecidableEq

/-- Row of the Delivery model: a foreign key to PurchaseRequest, a date,
the received flag and optional notes. -/
structure Delivery where
  purchase_request : Nat
  delivery_date : Nat
  received : Bool
  notes : Option String
deriving DecidableEq

/-- Row of the Maintenance model: foreign keys to Vehicle and Part, a date,
optional notes and the performer. -/
structure Maintenance where
  vehicle : Nat
  part : Nat
  maintenance_date : Nat
  notes : Option String
  performed_by : String
deriving DecidableEq

/-- The Inventory table: an association list from Part primary key to the
quantity column.  The signal receivers look rows up by part and keep at most
one row per part, matching the one-row-per-part reading of the model. -/
abbrev InventoryTable := List (Nat × Int)

/-- Generic row lookup by primary key in an association-list table, returning
the first matching row, as a Django get(...) on a unique key does. -/
def findRow {α : Type} : List (Nat × α) → Nat → Option α
  | [], _ => none
  | (k, v) :: rest, pk => if k = pk then some v else findRow rest pk

/-- Generic row write by primary key: replaces the first row with the given
key, or appends a fresh row when the key is absent (a Django save() on an
existing instance is an UPDATE of that row, on a fresh instance an INSERT). -/
def upsert {α : Type} (k : Nat) (v : α) : List (Nat × α) → List (Nat × α)
  | [] => [(k, v)]
  | (k1, v1) :: rest => if k1 = k then (k, v) :: rest else (k1, v1) :: upsert k v rest

/-- Inventory.update_quantity(change): the source sets
self.quantity = F(quantity) + change and saves, which issues a single
UPDATE ... SET quantity = quantity + change on the fetched row.  We update
the first row whose part key matches, i.e. exactly the row the receiver
obtained from get_or_create. -/
def update_quantity : InventoryTable → Nat → Int → InventoryTable
  | [], _, _ => []
  | (p, q) :: rest, part, change =>
    if p = part then (p, q + change) :: rest
    else (p, q) :: update_quantity rest part change

/-- Inventory.objects.get_or_create(part=...) as both receivers invoke it:
no defaults keyword is passed, and the quantity field of Inventory is
declared models.PositiveIntegerField(validators=[MinValueValidator(0)]) with
neither default= nor null=True.  On a hit the existing row and its quantity
are returned.  On a miss Django instantiates Inventory(part=part) whose
unset quantity attribute is None, and the INSERT violates the NOT NULL
constraint on the quantity column; get_or_create catches the IntegrityError,
retries the lookup, still finds no row, and re-raises the IntegrityError to
the caller.  So the miss path fails instead of creating a row. -/
def get_or_create_inventory (table : InventoryTable) (part : Nat) :
    Except DBError (InventoryTable × Int) :=
  match findRow table part with
  | some q => .ok (table, q)
  | none => .error (.integrityError "NOT NULL constraint failed: inventory.quantity")

/-- update_inventory_on_delivery, the post_save receiver on Delivery.  The
created flag is the one Django passes (true exactly when the save was an
INSERT); pr is the row the foreign key instance.purchase_request resolves
to.  When created and received, the receiver runs get_or_create on the part
of the linked purchase request and then update_quantity by that purchase
request quantity inside transaction.atomic; otherwise it does nothing. -/
def update_inventory_on_delivery (inst : Delivery) (created : Bool)
    (pr : PurchaseRequest) (table : InventoryTable) :
    Except DBError InventoryTable :=
  if created && inst.received then
    match get_or_create_inventory table pr.part with
    | .ok (t, _) => .ok (update_quantity t pr.part pr.quantity)
    | .error e => .error e
  else
    .ok table

/-- update_inventory_on_maintenance, the post_save receiver on Maintenance.
On creation it runs get_or_create on the part of the maintenance record and
decrements by 1 via update_quantity, but only when the fetched quantity is
strictly positive; a quantity of 0 (or below) is silently left alone. -/
def update_inventory_on_maintenance (inst : Maintenance) (created : Bool)
    (table : InventoryTable) : Except DBError InventoryTable :=
  if created then
    match get_or_create_inventory table inst.part with
    | .ok (t, q) => if q > 0 then .ok (update_quantity t inst.part (-1)) else .ok t
    | .error e => .error e
  else
    .ok table

/-- validate_purchase_request, the pre_save receiver on PurchaseRequest:
raises ValidationError when the instance quantity is not strictly positive.
Because pre_save fires before the row is written, a raise here aborts the
save with nothing persisted. -/
def validate_purchase_request (inst : PurchaseRequest) : Except DBError Unit :=
  if inst.quantity ≤ 0 then
    .error (.validationError "Quantity must be greater than zero.")
  else
    .ok ()

/-- handle_purchase_request_approval, the post_save receiver on
PurchaseRequest: the body of the conditional is a no-op placeholder, so we
model the receiver by the number of times the notification point runs during
one post_save dispatch (1 when the saved instance is approved and not
delivered, else 0). -/
def handle_purchase_request_approval (inst : PurchaseRequest) : Nat :=
  if inst.approved && !inst.delivered then 1 else 0

/-- The database state: the tables the signal receivers read or write.
Supplier, Part and VehiclePart rows carry no behavior in the receivers and
are not tracked beyond the part primary keys embedded in the other rows. -/
structure DBState where
  inventory : InventoryTable
  purchase_requests : List (Nat × PurchaseRequest)
  vehicles : List (Nat × Vehicle)
  deliveries : List (Nat × Delivery)
  maintenances : List (Nat × Maintenance)
deriving DecidableEq

/-- Full save() pipeline for a PurchaseRequest (create or update): the
pre_save receiver validate_purchase_request runs first and a raise aborts
the save; on success the row is written and the post_save receiver
handle_purchase_request_approval runs.  Returns the post-state, the error
surfaced to the caller (if any), and the number of times the notification
point fired during this save. -/
def save_purchase_request (st : DBState) (pk : Nat) (pr : PurchaseRequest) :
    DBState × Option DBError × Nat :=
  match validate_purchase_request pr with
  | .error e => (st, some e, 0)
  | .ok _ =>
    ({ st with purchase_requests := upsert pk pr st.purchase_requests },
     none, handle_purchase_request_approval pr)

/-- Creating a Delivery row.  The INSERT enforces the foreign key to
PurchaseRequest; then post_save fires with created = true.  The receiver
body runs inside transaction.atomic, so when it raises only the inventory
work is rolled back while the already-committed Delivery row remains. -/
def create_delivery (st : DBState) (pk : Nat) (d : Delivery) :
    DBState × Option DBError :=
  match findRow st.purchase_requests d.purchase_request with
  | none => (st, some (.integrityError "FOREIGN KEY constraint failed"))
  | some pr =>
    let st1 := { st with deliveries := upsert pk d st.deliveries }
    match update_inventory_on_delivery d true pr st1.inventory with
    | .ok t => ({ st1 with inventory := t }, none)
    | .error e => (st1, some e)

/-- Saving an already-existing Delivery row (an update): post_save fires
with created = false. -/
def update_delivery (st : DBState) (pk : Nat) (d : Delivery) :
    DBState × Option DBError :=
  match findRow st.purchase_requests d.purchase_request with
  | none => (st, some (.integrityError "FOREIGN KEY constraint failed"))
  | some pr =>
    let st1 := { st with deliveries := upsert pk d st.deliveries }
    match update_inventory_on_delivery d false pr st1.inventory with
    | .ok t => ({ st1 with inventory := t }, none)
    | .error e => (st1, some e)

/-- Creating a Maintenance row: the row is written, then post_save fires
with created = true; a raise in the receiver rolls back only the inventory
work (transaction.atomic inside the receiver). -/
def create_maintenance (st : DBState) (pk : Nat) (m : Maintenance) :
    DBState × Option DBError :=
  let st1 := { st with maintenances := upsert pk m st.maintenances }
  match update_inventory_on_maintenance m true st1.inventory with
  | .ok t => ({ st1 with inventory := t }, none)
  | .error e => (st1, some e)

/-- The operations a client of the model layer can perform that reach the
signal receivers. -/
inductive Op where
  | createDelivery (pk : Nat) (d : Delivery)
  | updateDelivery (pk : Nat) (d : Delivery)
  | createMaintenance (pk : Nat) (m : Maintenance)
  | savePurchaseRequest (pk : Nat) (pr : PurchaseRequest)
deriving DecidableEq

/-- One step of the system: apply an operation, returning the post-state
and the error surfaced to the caller (if any). -/
def applyOp (st : DBState) : Op → DBState × Option DBError
  | .createDelivery pk d => create_delivery st pk d
  | .updateDelivery pk d => update_delivery st pk d
  | .createMaintenance pk m => create_maintenance st pk m
  | .savePurchaseRequest pk pr =>
    let r := save_purchase_request st pk pr
    (r.1, r.2.1)

/-- Run a sequence of operations from a state, keeping the state each step
leaves behind (errors leave the state the step produced, as the database
does). -/
def run (st : DBState) (ops : List Op) : DBState :=
  ops.foldl (fun s op => (applyOp s op).1) st

/-- The state invariant the adjustment rules maintain: every inventory row
has a non-negative quantity, and every persisted purchase request has a
strictly positive quantity (guaranteed by the pre_save validator). -/
abbrev InvOK (st : DBState) : Prop :=
  (∀ r ∈ st.inventory, 0 ≤ r.2) ∧ (∀ r ∈ st.purchase_requests, 1 ≤ r.2.quantity)

/-- Example purchase request used to evaluate theorems on concrete data. -/
def exPR : PurchaseRequest :=
  { part := 1, vehicle := none, quantity := 3, request_date := 0,
    approved := false, delivered := false, delivery_date := none, notes := none }

/-- Example purchase request with a non-positive quantity. -/
def exBadPR : PurchaseRequest :=
  { part := 1, vehicle := none, quantity := -2, request_date := 0,
    approved := false, delivered := false, delivery_date := none, notes := none }

/-- Example purchase request that is approved and not yet delivered. -/
def exApprovedPR : PurchaseRequest :=
  { part := 1, vehicle := none, quantity := 2, request_date := 0,
    approved := true, delivered := false, delivery_date := none, notes := none }

/-- Example maintenance record on part 1. -/
def exMaint : Maintenance :=
  { vehicle := 4, part := 1, maintenance_date := 0, notes := none,
    performed_by := "tech" }

/-- Example received delivery for purchase request 2. -/
def exDel : Delivery :=
  { purchase_request := 2, delivery_date := 0, received := true, notes := none }

/-- Example delivery that is not received. -/
def exDelNotReceived : Delivery :=
  { purchase_request := 2, delivery_date := 0, received := false, notes := none }

/-- Example database state: part 1 has an inventory row at quantity 0 and
purchase request 2 (quantity 3) is persisted. -/
def exState : DBState :=
  { inventory := [(1, 0)], purchase_requests := [(2, exPR)], vehicles := [],
    deliveries := [], maintenances := [] }

/-- Example operation sequence exercising maintenance and delivery steps. -/
def exOps : List Op :=
  [.createMaintenance 1 exMaint, .createDelivery 1 exDel,
   .createMaintenance 2 exMaint]

end Mdrrmo

namespace Mdrrmo

/-- Looking up the updated part after update_quantity yields the old value
shifted by the change. -/
theorem findRow_update_quantity (table : InventoryTable) (part : Nat) (c : Int) :
    findRow (update_quantity table part c) part = (findRow table part).map (· + c) := by
  induction table with
  | nil => rfl
  | cons hd tl ih =>
    obtain ⟨p, q⟩ := hd
    by_cases hp : p = part
    · simp [update_quantity, findRow, hp]
    · simp [update_quantity, findRow, hp, ih]

/-- A successful findRow exhibits a member of the table. -/
theorem findRow_mem {α : Type} (l : List (Nat × α)) (pk : Nat) (v : α)
    (h : findRow l pk = some v) : (pk, v) ∈ l := by
  induction l with
  | nil => simp [findRow] at h
  | cons hd tl ih =>
    obtain ⟨k, w⟩ := hd
    by_cases hk : k = pk
    · subst hk
      simp [findRow] at h
      subst h
      exact List.mem_cons_self _ _
    · simp [findRow, hk] at h
      exact List.mem_cons_of_mem _ (ih h)

/-- Every row of update_quantity is either an untouched row of the table or
the first row matching the part with its quantity shifted by the change. -/
theorem mem_update_quantity (table : InventoryTable) (part : Nat) (c : Int)
    (r : Nat × Int) (hr : r ∈ update_quantity table part c) :
    r ∈ table ∨ ∃ q, findRow table part = some q ∧ r = (part, q + c) := by
  induction table with
  | nil => simp [update_quantity] at hr
  | cons hd tl ih =>
    obtain ⟨p, q⟩ := hd
    by_cases hp : p = part
    · subst hp
      simp [update_quantity] at hr
      rcases hr with h | h
      · exact Or.inr ⟨q, by simp [findRow], by simp [h]⟩
      · exact Or.inl (List.mem_cons_of_mem _ h)
    · simp [update_quantity, hp] at hr
      rcases hr with h | h
      · exact Or.inl (by simp [h])
      · rcases ih h with h1 | ⟨q1, hq1, hr1⟩
        · exact Or.inl (List.mem_cons_of_mem _ h1)
        · exact Or.inr ⟨q1, by simp [findRow, hp, hq1], hr1⟩

/-- Every row of upsert is the written row or a row of the original table. -/
theorem mem_upsert {α : Type} (k : Nat) (v : α) (l : List (Nat × α))
    (r : Nat × α) (hr : r ∈ upsert k v l) : r = (k, v) ∨ r ∈ l := by
  induction l with
  | nil => simpa [upsert] using hr
  | cons hd tl ih =>
    obtain ⟨k1, v1⟩ := hd
    by_cases hk : k1 = k
    · simp [upsert, hk] at hr
      rcases hr with h | h
      · exact Or.inl (by simp [h])
      · exact Or.inr (List.mem_cons_of_mem _ h)
    · simp [upsert, hk] at hr
      rcases hr with h | h
      · exact Or.inr (by simp [h])
      · rcases ih h with h1 | h1
        · exact Or.inl h1
        · exact Or.inr (List.mem_cons_of_mem _ h1)

/-- update_quantity preserves non-negativity when the shifted row stays
non-negative. -/
theorem update_quantity_nonneg (table : InventoryTable) (part : Nat) (c q : Int)
    (hinv : ∀ r ∈ table, 0 ≤ r.2) (hq : findRow table part = some q)
    (hc : 0 ≤ q + c) : ∀ r ∈ update_quantity table part c, 0 ≤ r.2 := by
  intro r hr
  rcases mem_update_quantity table part c r hr with h | ⟨q1, hq1, hr1⟩
  · exact hinv r h
  · rw [hq] at hq1
    cases hq1
    subst hr1
    exact hc

end Mdrrmo

namespace Mdrrmo

/-- A successful run of the delivery receiver preserves non-negativity of
the inventory, given that the linked purchase request has positive
quantity. -/
theorem delivery_handler_nonneg (d : Delivery) (created : Bool)
    (pr : PurchaseRequest) (table t : InventoryTable)
    (hinv : ∀ r ∈ table, 0 ≤ r.2) (hpr : 1 ≤ pr.quantity)
    (hok : update_inventory_on_delivery d created pr table = .ok t) :
    ∀ r ∈ t, 0 ≤ r.2 := by
  unfold update_inventory_on_delivery at hok
  by_cases hc : created && d.received
  · rw [if_pos hc] at hok
    unfold get_or_create_inventory at hok
    cases hfr : findRow table pr.part with
    | none => rw [hfr] at hok; simp at hok
    | some q =>
      rw [hfr] at hok
      simp at hok
      subst hok
      have hq : 0 ≤ q := hinv (pr.part, q) (findRow_mem _ _ _ hfr)
      exact update_quantity_nonneg table pr.part pr.quantity q hinv hfr (by omega)
  · rw [if_neg hc] at hok
    simp at hok
    subst hok
    exact hinv

/-- A successful run of the maintenance receiver preserves non-negativity of
the inventory: the guard allows the decrement only from a strictly positive
quantity. -/
theorem maintenance_handler_nonneg (m : Maintenance) (created : Bool)
    (table t : InventoryTable)
    (hinv : ∀ r ∈ table, 0 ≤ r.2)
    (hok : update_inventory_on_maintenance m created table = .ok t) :
    ∀ r ∈ t, 0 ≤ r.2 := by
  unfold update_inventory_on_maintenance at hok
  by_cases hc : created = true
  · subst hc
    rw [if_pos rfl] at hok
    unfold get_or_create_inventory at hok
    cases hfr : findRow table m.part with
    | none => rw [hfr] at hok; simp at hok
    | some q =>
      rw [hfr] at hok
      simp at hok
      by_cases hq : q > 0
      · rw [if_pos hq] at hok
        simp at hok
        subst hok
        exact update_quantity_nonneg table m.part (-1) q hinv hfr (by omega)
      · rw [if_neg hq] at hok
        simp at hok
        subst hok
        exact hinv
  · rw [if_neg (by simpa using hc)] at hok
    simp at hok
    subst hok
    exact hinv

/-- Every single operation preserves the state invariant. -/
theorem applyOp_inv (st : DBState) (op : Op) (h : InvOK st) :
    InvOK (applyOp st op).1 := by
  obtain ⟨hinv, hpr⟩ := h
  cases op with
  | createDelivery pk d =>
    show InvOK (create_delivery st pk d).1
    simp only [create_delivery]
    split
    · exact ⟨hinv, hpr⟩
    next pr hfr =>
      have hq : 1 ≤ pr.quantity := hpr _ (findRow_mem _ _ _ hfr)
      split
      next t hok =>
        exact ⟨delivery_handler_nonneg d true pr st.inventory t hinv hq hok, hpr⟩
      next e hok => exact ⟨hinv, hpr⟩
  | updateDelivery pk d =>
    show InvOK (update_delivery st pk d).1
    simp only [update_delivery]
    split
    · exact ⟨hinv, hpr⟩
    next pr hfr =>
      split
      next t hok =>
        have ht : st.inventory = t := by
          simpa [update_inventory_on_delivery] using hok
        subst ht
        exact ⟨hinv, hpr⟩
      next e hok => exact ⟨hinv, hpr⟩
  | createMaintenance pk m =>
    show InvOK (create_maintenance st pk m).1
    simp only [create_maintenance]
    split
    next t hok =>
      exact ⟨maintenance_handler_nonneg m true st.inventory t hinv hok, hpr⟩
    next e hok => exact ⟨hinv, hpr⟩
  | savePurchaseRequest pk pr =>
    show InvOK (save_purchase_request st pk pr).1
    simp only [save_purchase_request]
    split
    next e hv => exact ⟨hinv, hpr⟩
    next u hv =>
      refine ⟨hinv, ?_⟩
      intro r hr
      rcases mem_upsert pk pr st.purchase_requests r hr with h1 | h1
      · subst h1
        unfold validate_purchase_request at hv
        by_cases hq : pr.quantity ≤ 0
        · rw [if_pos hq] at hv; cases hv
        · show (1 : Int) ≤ pr.quantity
          omega
      · exact hpr r h1

/-- Running any sequence of operations from an invariant state keeps the
invariant. -/
theorem run_inv (ops : List Op) (st : DBState) (h : InvOK st) :
    InvOK (run st ops) := by
  induction ops generalizing st with
  | nil => exact h
  | cons op rest ih => exact ih (applyOp st op).1 (applyOp_inv st op h)

end Mdrrmo

namespace Mdrrmo

/-- Claim C1: creating a Delivery with received = true for a PurchaseRequest
of quantity N is claimed to increase the Inventory of the request Part by
exactly N, creating the Inventory row when it is missing so the post-state
reflects the +N delta.  On the code the missing-row branch fails instead of
creating the row: both receivers call get_or_create with no defaults while
Inventory.quantity has neither a default value nor null=True, so the
attempted INSERT of the fresh row violates the NOT NULL constraint and
get_or_create re-raises the IntegrityError.  This theorem evaluates the
embedded receiver at the failing input: Part 7 has no Inventory row, the
linked PurchaseRequest has quantity 3, the Delivery is created with
received = true, and the receiver surfaces the IntegrityError rather than
producing a table with the +3 row. -/
theorem C1_delivery_missing_inventory_row_raises :
    update_inventory_on_delivery
      { purchase_request := 1, delivery_date := 0, received := true, notes := none }
      true
      { part := 7, vehicle := none, quantity := 3, request_date := 0,
        approved := true, delivered := false, delivery_date := none, notes := none }
      [] =
      .error (DBError.integrityError "NOT NULL constraint failed: inventory.quantity") :=
  rfl

/-- Claim C2: creating a Maintenance record for a Part whose Inventory row
holds quantity q succeeds with no error; when q > 0 the quantity is
decremented by exactly 1, and when the decrement would go below zero (in
particular q = 0) the inventory is left exactly unchanged. -/
theorem C2_maintenance_decrements_only_when_positive (m : Maintenance)
    (table : InventoryTable) (q : Int)
    (h : findRow table m.part = some q) :
    ∃ t, update_inventory_on_maintenance m true table = .ok t ∧
      findRow t m.part = some (if 0 < q then q - 1 else q) ∧
      (¬ 0 < q → t = table) := by
  by_cases hq : 0 < q
  · refine ⟨update_quantity table m.part (-1), ?_, ?_, fun hc => absurd hq hc⟩
    · simp [update_inventory_on_maintenance, get_or_create_inventory, h, hq]
    · rw [findRow_update_quantity, h]
      simp [hq]
      omega
  · refine ⟨table, ?_, ?_, fun _ => rfl⟩
    · simp [update_inventory_on_maintenance, get_or_create_inventory, h, hq]
    · rw [h]
      simp [hq]

/-- Claim C2 witness: part 2 at quantity 5, one maintenance creation ends at
quantity 4 with no error. -/
theorem C2_witness :
    findRow [((2 : Nat), (5 : Int))] 2 = some 5 ∧
      ∃ t, update_inventory_on_maintenance
          { vehicle := 1, part := 2, maintenance_date := 0, notes := none,
            performed_by := "tech" } true [(2, 5)] = .ok t ∧
        findRow t 2 = some (if (0 : Int) < 5 then 5 - 1 else 5) ∧
        (¬ (0 : Int) < 5 → t = [(2, 5)]) :=
  ⟨by decide,
   C2_maintenance_decrements_only_when_positive
     { vehicle := 1, part := 2, maintenance_date := 0, notes := none,
       performed_by := "tech" } [(2, 5)] 5 (by decide)⟩

/-- Claim C3: from any state satisfying the maintained invariant (every
inventory quantity non-negative, every persisted purchase request strictly
positive), any sequence of Delivery, Maintenance and PurchaseRequest
operations leaves every Part with a non-negative Inventory quantity. -/
theorem C3_inventory_never_negative (st : DBState) (ops : List Op)
    (h : InvOK st) : ∀ r ∈ (run st ops).inventory, 0 ≤ r.2 :=
  (run_inv ops st h).1

/-- Claim C3 witness: a concrete run (maintenance at quantity 0, a received
delivery, another maintenance) keeps the inventory non-negative. -/
theorem C3_witness :
    InvOK exState ∧ ∀ r ∈ (run exState exOps).inventory, 0 ≤ r.2 :=
  ⟨⟨by decide, by decide⟩,
   C3_inventory_never_negative exState exOps ⟨by decide, by decide⟩⟩

/-- Claim C4: saving a PurchaseRequest whose quantity is zero or negative
surfaces a ValidationError and leaves the whole database state unchanged, so
no row is created or modified by the attempt. -/
theorem C4_nonpositive_quantity_rejected (st : DBState) (pk : Nat)
    (pr : PurchaseRequest) (h : pr.quantity ≤ 0) :
    save_purchase_request st pk pr =
      (st, some (DBError.validationError "Quantity must be greater than zero."), 0) := by
  simp [save_purchase_request, validate_purchase_request, h]

/-- Claim C4 witness: a purchase request with quantity -2 is rejected and
the state is untouched. -/
theorem C4_witness :
    exBadPR.quantity ≤ 0 ∧
      save_purchase_request exState 9 exBadPR =
        (exState, some (DBError.validationError "Quantity must be greater than zero."), 0) :=
  ⟨by decide, C4_nonpositive_quantity_rejected exState 9 exBadPR (by decide)⟩

/-- Claim C6: the delivery inventory rule fires only on creation with
received = true; saving an existing Delivery (an update) never changes the
inventory, and creating a Delivery with received = false never changes the
inventory. -/
theorem C6_delivery_rule_frame (st : DBState) (pk : Nat) (d : Delivery) :
    (update_delivery st pk d).1.inventory = st.inventory ∧
      (d.received = false → (create_delivery st pk d).1.inventory = st.inventory) := by
  constructor
  · simp only [update_delivery]
    split
    · rfl
    next pr hfr =>
      split
      next t hok =>
        have ht : st.inventory = t := by
          simpa [update_inventory_on_delivery] using hok
        exact ht.symm
      next e hok => rfl
  · intro hrec
    simp only [create_delivery]
    split
    · rfl
    next pr hfr =>
      split
      next t hok =>
        have ht : st.inventory = t := by
          simpa [update_inventory_on_delivery, hrec] using hok
        exact ht.symm
      next e hok => rfl

/-- Claim C6 witness: creating a delivery with received = false leaves the
inventory unchanged. -/
theorem C6_witness :
    (create_delivery exState 3 exDelNotReceived).1.inventory = exState.inventory :=
  (C6_delivery_rule_frame exState 3 exDelNotReceived).2 (by decide)

/-- Claim C7: for a save of a PurchaseRequest that passes validation, the
approval-notification point runs exactly once when the saved record has
approved = true and delivered = false, and otherwise runs zero times (the
invocation count is always 0 or 1). -/
theorem C7_approval_hook_exactly_once (st : DBState) (pk : Nat)
    (pr : PurchaseRequest) (h : 0 < pr.quantity) :
    ((save_purchase_request st pk pr).2.2 = 1 ↔
        (pr.approved = true ∧ pr.delivered = false)) ∧
      ((save_purchase_request st pk pr).2.2 = 0 ∨
        (save_purchase_request st pk pr).2.2 = 1) := by
  have hv : ¬ pr.quantity ≤ 0 := by omega
  simp [save_purchase_request, validate_purchase_request, hv,
    handle_purchase_request_approval]
  cases hap : pr.approved <;> cases hdel : pr.delivered <;> simp

/-- Claim C7 witness: saving an approved, undelivered purchase request of
quantity 2 fires the notification point exactly once. -/
theorem C7_witness :
    (0 : Int) < exApprovedPR.quantity ∧
      (((save_purchase_request exState 4 exApprovedPR).2.2 = 1 ↔
          (exApprovedPR.approved = true ∧ exApprovedPR.delivered = false)) ∧
        ((save_purchase_request exState 4 exApprovedPR).2.2 = 0 ∨
          (save_purchase_request exState 4 exApprovedPR).2.2 = 1)) :=
  ⟨by decide, C7_approval_hook_exactly_once exState 4 exApprovedPR (by decide)⟩

/-- Claim C8: saving a PurchaseRequest (create or update, any quantity, any
flags) never changes the Inventory table; only Delivery and Maintenance
creations can modify it. -/
theorem C8_purchase_request_save_preserves_inventory (st : DBState) (pk : Nat)
    (pr : PurchaseRequest) :
    (save_purchase_request st pk pr).1.inventory = st.inventory := by
  unfold save_purchase_request
  split <;> rfl

/-- Claim C9: creating a Delivery never changes the PurchaseRequest table,
in particular it does not set the delivered flag or the delivery date of
the linked PurchaseRequest. -/
theorem C9_create_delivery_preserves_purchase_requests (st : DBState)
    (pk : Nat) (d : Delivery) :
    (create_delivery st pk d).1.purchase_requests = st.purchase_requests := by
  simp only [create_delivery]
  split
  · rfl
  next pr hfr => split <;> rfl

/-- Claim C10: creating a Maintenance record never changes the Vehicle
table, in particular the last maintenance date of the linked Vehicle is not
updated. -/
theorem C10_create_maintenance_preserves_vehicles (st : DBState) (pk : Nat)
    (m : Maintenance) :
    (create_maintenance st pk m).1.vehicles = st.vehicles := by
  simp only [create_maintenance]
  split <;> rfl

end Mdrrmo
